import Mathlib

/-!
Shallow embedding of the ride-sharing server (`src/server.js`) and the signup
client (`public/js/auth.js`).

The server keeps its state in MySQL tables (`users`, `ride_requests`,
`driver_applications`); we model each table as a partial map from the integer
primary key to a record of the row's columns, and every HTTP handler as a pure
function from the store (plus the parsed request body) to the new store
together with the list of WebSocket events it broadcasts.  JavaScript numbers
are modelled as real numbers, `Math.round` as `fun x => ⌊x + 1/2⌋`, and the
SQL `UPDATE ... WHERE id = ?` as a pointwise update of the map that leaves an
absent row absent.
-/

namespace RideShare

/-- JavaScript `Math.round`: rounds to the nearest integer, ties toward
positive infinity (`Math.round x = ⌊x + 0.5⌋`). -/
noncomputable def jsRound (x : ℝ) : ℤ := ⌊x + 1/2⌋

/-- JavaScript `Math.atan2 y x` on real (finite, non-NaN) inputs. -/
noncomputable def jsAtan2 (y x : ℝ) : ℝ :=
  if 0 < x then Real.arctan (y / x)
  else if x < 0 then
    (if 0 ≤ y then Real.arctan (y / x) + Real.pi else Real.arctan (y / x) - Real.pi)
  else
    (if 0 < y then Real.pi / 2 else if y < 0 then -(Real.pi / 2) else 0)

/-- `deg2rad` from `server.js`: `deg * (Math.PI / 180)`. -/
noncomputable def deg2rad (deg : ℝ) : ℝ := deg * (Real.pi / 180)

/-- `getDistanceFromLatLonInKm` from `server.js`: haversine great-circle
distance with Earth radius `R = 6371` km. -/
noncomputable def getDistanceFromLatLonInKm (lat1 lon1 lat2 lon2 : ℝ) : ℝ :=
  let R : ℝ := 6371
  let dLat := deg2rad (lat2 - lat1)
  let dLon := deg2rad (lon2 - lon1)
  let a :=
    Real.sin (dLat / 2) * Real.sin (dLat / 2) +
      Real.cos (deg2rad lat1) * Real.cos (deg2rad lat2) *
        Real.sin (dLon / 2) * Real.sin (dLon / 2)
  let c := 2 * jsAtan2 (Real.sqrt a) (Real.sqrt (1 - a))
  R * c

/-- The `a` term of the haversine formula (the argument of the square roots in
`getDistanceFromLatLonInKm`), split out so symmetry can be proved about it. -/
noncomputable def havTerm (lat1 lon1 lat2 lon2 : ℝ) : ℝ :=
  Real.sin (deg2rad (lat2 - lat1) / 2) * Real.sin (deg2rad (lat2 - lat1) / 2) +
    Real.cos (deg2rad lat1) * Real.cos (deg2rad lat2) *
      Real.sin (deg2rad (lon2 - lon1) / 2) * Real.sin (deg2rad (lon2 - lon1) / 2)

theorem getDistance_eq_havTerm (lat1 lon1 lat2 lon2 : ℝ) :
    getDistanceFromLatLonInKm lat1 lon1 lat2 lon2 =
      6371 * (2 * jsAtan2 (Real.sqrt (havTerm lat1 lon1 lat2 lon2))
        (Real.sqrt (1 - havTerm lat1 lon1 lat2 lon2))) := rfl

/-- JS `x.toFixed(2)` (which the server stores into `distance_km`) modelled as
the numeric value rounded to two decimal places. -/
noncomputable def toFixed2 (x : ℝ) : ℝ := (jsRound (x * 100) : ℝ) / 100

/-- JS `x.toFixed(1)` (sent in the `dist` field of `NEW_RIDE_REQUEST`). -/
noncomputable def toFixed1 (x : ℝ) : ℝ := (jsRound (x * 10) : ℝ) / 10

/-- One row of the `ride_requests` table. -/
structure Ride where
  passengerId : Nat
  pickupLat : ℝ
  pickupLng : ℝ
  dropLat : ℝ
  dropLng : ℝ
  distanceKm : ℝ
  fare : ℤ
  status : String
  driverId : Option Nat

/-- The `ride_requests` table plus its auto-increment counter. -/
structure RideDB where
  rides : Nat → Option Ride
  nextId : Nat

/-- The WebSocket events the server broadcasts (`broadcast({...})` call
sites in `server.js`), with the fields each payload carries. -/
inductive Event where
  | newRideRequest (rideId passengerId : Nat) (lat lng dropLat dropLng : ℝ)
      (fare : ℤ) (dist : ℝ)
  | rideAccepted (rideId driverId passengerId : Nat)
  | statusUpdate (rideId : Nat) (status : String) (updaterId : Nat)

/-- Result of the `/api/request-ride` handler: the new store, the broadcast
events, and the JSON response fields `rideId` and `fare`. -/
structure RequestResult where
  db : RideDB
  events : List Event
  rideId : Nat
  fare : ℤ

/-- The `/api/request-ride` handler.  Computes the haversine distance, inflates
it by 1.5 for an estimated road distance, prices the ride at
`Math.round(50 + estRoadDist * 40)` with a minimum of 100, inserts the row and
broadcasts `NEW_RIDE_REQUEST`.

Modelled from the spec: the `INSERT` lists neither the `status` nor the
`driver_id` column, so the new row takes the table defaults, which the schema
(not part of the repository) must supply; per the spec a newly created ride is
in state `requested` with `driverId` unset (NULL). -/
noncomputable def requestRide (db : RideDB) (passengerId : Nat)
    (pickupLat pickupLng dropLat dropLng : ℝ) : RequestResult :=
  let straightDist := getDistanceFromLatLonInKm pickupLat pickupLng dropLat dropLng
  let estRoadDist := straightDist * 1.5
  let fare0 := jsRound (50 + estRoadDist * 40)
  let fare := if fare0 < 100 then 100 else fare0
  let ride : Ride :=
    { passengerId := passengerId, pickupLat := pickupLat, pickupLng := pickupLng,
      dropLat := dropLat, dropLng := dropLng, distanceKm := toFixed2 estRoadDist,
      fare := fare, status := "requested", driverId := none }
  { db := { rides := fun i => if i = db.nextId then some ride else db.rides i,
            nextId := db.nextId + 1 },
    events := [Event.newRideRequest db.nextId passengerId pickupLat pickupLng
      dropLat dropLng fare (toFixed1 estRoadDist)],
    rideId := db.nextId, fare := fare }

/-- The `/api/accept-ride` handler: unconditionally runs
`UPDATE ride_requests SET status = 'accepted', driver_id = ? WHERE id = ?`
and then broadcasts `RIDE_ACCEPTED` (the `passengerId` in the event comes from
the request body, not from the database). -/
def acceptRide (db : RideDB) (rideId driverId passengerId : Nat) :
    RideDB × List Event :=
  ({ db with rides := fun i =>
      if i = rideId then
        (db.rides i).map (fun r => { r with status := "accepted", driverId := some driverId })
      else db.rides i },
   [Event.rideAccepted rideId driverId passengerId])

/-- The `/api/update-ride-status` handler: unconditionally runs
`UPDATE ride_requests SET status = ? WHERE id = ?` with the client-supplied
status string and then broadcasts `STATUS_UPDATE`. -/
def updateRideStatus (db : RideDB) (rideId : Nat) (status : String)
    (userId : Nat) : RideDB × List Event :=
  ({ db with rides := fun i =>
      if i = rideId then (db.rides i).map (fun r => { r with status := status })
      else db.rides i },
   [Event.statusUpdate rideId status userId])

/-- The columns of a `users` row that the handlers read or write. -/
structure UserRec where
  role : String
  is_verified : Bool
deriving DecidableEq

/-- State touched by the admin verification handler: the `users` table and the
`driver_applications` table (only the `status` column matters here), each
keyed by its integer id. -/
structure AdminDB where
  users : Nat → Option UserRec
  applications : Nat → Option String

/-- The `/api/admin/verify` handler: sets the application's status to the
client-supplied string, and only when that string is `approved` also runs
`UPDATE users SET role = 'driver', is_verified = 1 WHERE id = ?` on the
client-supplied `userId`. -/
def adminVerify (db : AdminDB) (applicationId userId : Nat) (status : String) :
    AdminDB :=
  let db1 : AdminDB :=
    { db with applications := fun i =>
        if i = applicationId then (db.applications i).map (fun _ => status)
        else db.applications i }
  if status = "approved" then
    { db1 with users := fun i =>
        if i = userId then
          (db1.users i).map (fun u => { u with role := "driver", is_verified := true })
        else db1.users i }
  else db1

/-- The body of a signup request.  The signup form in `public/js/auth.js`
sends a `role` field chosen by the client; the server's `/api/signup` handler
destructures only the other fields and never reads `role`. -/
structure SignupRequest where
  fullName : String
  username : String
  phone : String
  email : Option String
  dobAD : String
  password : String
  role : String

/-- A `users` row as written by `/api/signup` (`email || null` is modelled by
the `Option` in the request). -/
structure UserRow where
  fullname : String
  username : String
  phone : String
  email : Option String
  dob_ad : String
  password_hash : String
  role : String
deriving DecidableEq

/-- The `/api/signup` handler's `INSERT INTO users`: every column comes from
the request body except `password_hash` (the bcrypt hash, abstracted as a
function parameter) and `role`, which is hardcoded to `'passenger'`. -/
def signup (hash : String → String) (req : SignupRequest) : UserRow :=
  { fullname := req.fullName, username := req.username, phone := req.phone,
    email := req.email, dob_ad := req.dobAD,
    password_hash := hash req.password, role := "passenger" }

/-- One WebSocket client as seen by `broadcast`: `isOpen` models
`readyState === WebSocket.OPEN`, and `sendOk = false` models a `send` call
that fails by throwing. -/
structure Client where
  id : Nat
  isOpen : Bool
  sendOk : Bool
deriving DecidableEq

/-- The delivery loop of `broadcast` in `server.js`:
`wss.clients.forEach(client => { if (open) client.send(...) })`.
A client that is not open is skipped.  There is no try/catch around the send,
so a throwing send propagates out of the `forEach` and stops the iteration:
the result is the list of client ids that received the event, paired with
`true` iff the loop ran to completion. -/
def broadcastRun : List Client → List Nat × Bool
  | [] => ([], true)
  | c :: rest =>
    if c.isOpen then
      if c.sendOk then
        let p := broadcastRun rest
        (c.id :: p.1, p.2)
      else ([], false)
    else broadcastRun rest

/-- `broadcast` in `server.js`: delivers to the registered clients via
`broadcastRun` and returns the registry afterwards.  The function body never
adds to or removes from `wss.clients`, so the registry it leaves behind is the
input list unchanged. -/
def broadcast (clients : List Client) : List Nat × List Client :=
  ((broadcastRun clients).1, clients)

theorem havTerm_symm (lat1 lon1 lat2 lon2 : ℝ) :
    havTerm lat1 lon1 lat2 lon2 = havTerm lat2 lon2 lat1 lon1 := by
  unfold havTerm deg2rad
  rw [show (lat1 - lat2) * (Real.pi / 180) / 2 = -((lat2 - lat1) * (Real.pi / 180) / 2) by ring,
      show (lon1 - lon2) * (Real.pi / 180) / 2 = -((lon2 - lon1) * (Real.pi / 180) / 2) by ring]
  simp only [Real.sin_neg]
  ring

theorem havTerm_diag (lat lon : ℝ) : havTerm lat lon lat lon = 0 := by
  unfold havTerm deg2rad
  simp

/-- Claim C9: the haversine distance `getDistanceFromLatLonInKm` is symmetric
in its two coordinate pairs, and the distance from any coordinate to itself
is zero. -/
theorem haversine_symm_and_diag_zero :
    (∀ lat1 lon1 lat2 lon2 : ℝ,
      getDistanceFromLatLonInKm lat1 lon1 lat2 lon2 =
        getDistanceFromLatLonInKm lat2 lon2 lat1 lon1) ∧
    (∀ lat lon : ℝ, getDistanceFromLatLonInKm lat lon lat lon = 0) := by
  constructor
  · intro lat1 lon1 lat2 lon2
    rw [getDistance_eq_havTerm, getDistance_eq_havTerm, havTerm_symm lat1 lon1 lat2 lon2]
  · intro lat lon
    rw [getDistance_eq_havTerm, havTerm_diag]
    simp [jsAtan2, Real.arctan_zero]

/-- Claim C4: the fare returned by the ride-creation handler equals
`max 100 (round (50 + haversine(pickup, dropoff) * 1.5 * 40))`, a pure
function of the two coordinate pairs. -/
theorem requestRide_fare_eq_formula (db : RideDB) (pid : Nat)
    (plat plng dlat dlng : ℝ) :
    (requestRide db pid plat plng dlat dlng).fare =
      max 100 (jsRound (50 + getDistanceFromLatLonInKm plat plng dlat dlng * 1.5 * 40)) := by
  have h : ∀ n : ℤ, (if n < 100 then (100 : ℤ) else n) = max 100 n := by
    intro n
    rcases lt_or_le n 100 with hn | hn
    · rw [if_pos hn, max_eq_left hn.le]
    · rw [if_neg (not_lt.mpr hn), max_eq_right hn]
  exact h (jsRound (50 + getDistanceFromLatLonInKm plat plng dlat dlng * 1.5 * 40))

/-- Claim C7: a successful ride request inserts a new row at the store's next
id whose status is `requested` and whose `driverId` is unset, and returns that
row's id together with the fare stored in it. -/
theorem requestRide_creates_requested_ride (db : RideDB) (pid : Nat)
    (plat plng dlat dlng : ℝ) :
    (requestRide db pid plat plng dlat dlng).rideId = db.nextId ∧
    (requestRide db pid plat plng dlat dlng).db.rides
        (requestRide db pid plat plng dlat dlng).rideId =
      some { passengerId := pid, pickupLat := plat, pickupLng := plng,
             dropLat := dlat, dropLng := dlng,
             distanceKm := toFixed2 (getDistanceFromLatLonInKm plat plng dlat dlng * 1.5),
             fare := (requestRide db pid plat plng dlat dlng).fare,
             status := "requested", driverId := none } := by
  refine ⟨rfl, ?_⟩
  show (if db.nextId = db.nextId then _ else _) = _
  rw [if_pos rfl]
  rfl

/-- Claim C8: for every ride row (the updated one and all others), both
`acceptRide` and `updateRideStatus` leave the `fare`, pickup and dropoff
coordinates, `distanceKm`, and `passengerId` columns unchanged — their SQL
`UPDATE` statements set only `status` (and, for accept, `driver_id`). -/
theorem accept_updateStatus_preserve_frame (db : RideDB)
    (rid did pid uid i : Nat) (st : String) :
    ((acceptRide db rid did pid).1.rides i).map Ride.fare = (db.rides i).map Ride.fare ∧
    ((acceptRide db rid did pid).1.rides i).map Ride.passengerId = (db.rides i).map Ride.passengerId ∧
    ((acceptRide db rid did pid).1.rides i).map Ride.pickupLat = (db.rides i).map Ride.pickupLat ∧
    ((acceptRide db rid did pid).1.rides i).map Ride.pickupLng = (db.rides i).map Ride.pickupLng ∧
    ((acceptRide db rid did pid).1.rides i).map Ride.dropLat = (db.rides i).map Ride.dropLat ∧
    ((acceptRide db rid did pid).1.rides i).map Ride.dropLng = (db.rides i).map Ride.dropLng ∧
    ((acceptRide db rid did pid).1.rides i).map Ride.distanceKm = (db.rides i).map Ride.distanceKm ∧
    ((updateRideStatus db rid st uid).1.rides i).map Ride.fare = (db.rides i).map Ride.fare ∧
    ((updateRideStatus db rid st uid).1.rides i).map Ride.passengerId = (db.rides i).map Ride.passengerId ∧
    ((updateRideStatus db rid st uid).1.rides i).map Ride.pickupLat = (db.rides i).map Ride.pickupLat ∧
    ((updateRideStatus db rid st uid).1.rides i).map Ride.pickupLng = (db.rides i).map Ride.pickupLng ∧
    ((updateRideStatus db rid st uid).1.rides i).map Ride.dropLat = (db.rides i).map Ride.dropLat ∧
    ((updateRideStatus db rid st uid).1.rides i).map Ride.dropLng = (db.rides i).map Ride.dropLng ∧
    ((updateRideStatus db rid st uid).1.rides i).map Ride.distanceKm = (db.rides i).map Ride.distanceKm := by
  unfold acceptRide updateRideStatus
  by_cases h : i = rid <;> cases hr : db.rides i <;>
    simp_all

/-- Claim C5: deciding a driver application with verdict `approved` sets the
application's status to `approved` and the referenced user's role to `driver`
with the verified flag set; verdict `rejected` sets the application's status
to `rejected` and leaves the user row untouched. -/
theorem adminVerify_approved_promotes_rejected_leaves (db : AdminDB)
    (appId uId : Nat) (st : String) (u : UserRec)
    (happ : db.applications appId = some st) (hu : db.users uId = some u) :
    (adminVerify db appId uId "approved").applications appId = some "approved" ∧
    (adminVerify db appId uId "approved").users uId =
      some { role := "driver", is_verified := true } ∧
    (adminVerify db appId uId "rejected").applications appId = some "rejected" ∧
    (adminVerify db appId uId "rejected").users uId = some u := by
  have hR : ¬ (("rejected" : String) = "approved") := by decide
  unfold adminVerify
  rw [if_pos rfl, if_neg hR]
  refine ⟨?_, ?_, ?_, hu⟩
  · show (if appId = appId then _ else _) = _
    rw [if_pos rfl, happ]
    rfl
  · show (if uId = uId then _ else _) = _
    rw [if_pos rfl, hu]
    rfl
  · show (if appId = appId then _ else _) = _
    rw [if_pos rfl, happ]
    rfl

def sampleAdminDB : AdminDB :=
  { users := fun i => if i = 2 then some { role := "passenger", is_verified := false } else none,
    applications := fun i => if i = 1 then some "pending" else none }

theorem adminVerify_approved_promotes_rejected_leaves_witness :
    sampleAdminDB.applications 1 = some "pending" ∧
    sampleAdminDB.users 2 = some { role := "passenger", is_verified := false } ∧
    ((adminVerify sampleAdminDB 1 2 "approved").applications 1 = some "approved" ∧
     (adminVerify sampleAdminDB 1 2 "approved").users 2 =
       some { role := "driver", is_verified := true } ∧
     (adminVerify sampleAdminDB 1 2 "rejected").applications 1 = some "rejected" ∧
     (adminVerify sampleAdminDB 1 2 "rejected").users 2 =
       some { role := "passenger", is_verified := false }) :=
  ⟨rfl, rfl,
    adminVerify_approved_promotes_rejected_leaves sampleAdminDB 1 2 "pending"
      { role := "passenger", is_verified := false } rfl rfl⟩

/-- Claim C10: the signup handler hardcodes the inserted role to `passenger`,
ignoring the role field the client form sends: two signup requests that agree
on every field except `role` produce identical user rows, and the stored role
is always `passenger`. -/
theorem signup_role_hardcoded_passenger (hash : String → String)
    (r1 r2 : SignupRequest)
    (h1 : r1.fullName = r2.fullName) (h2 : r1.username = r2.username)
    (h3 : r1.phone = r2.phone) (h4 : r1.email = r2.email)
    (h5 : r1.dobAD = r2.dobAD) (h6 : r1.password = r2.password) :
    signup hash r1 = signup hash r2 ∧ (signup hash r1).role = "passenger" := by
  constructor
  · unfold signup
    rw [h1, h2, h3, h4, h5, h6]
  · rfl

def sigReqA : SignupRequest :=
  { fullName := "Asha Rai", username := "asha", phone := "9800000001",
    email := none, dobAD := "2000-01-01", password := "hunter22", role := "driver" }

def sigReqB : SignupRequest :=
  { fullName := "Asha Rai", username := "asha", phone := "9800000001",
    email := none, dobAD := "2000-01-01", password := "hunter22", role := "passenger" }

theorem signup_role_hardcoded_passenger_witness :
    sigReqA.fullName = sigReqB.fullName ∧ sigReqA.username = sigReqB.username ∧
    sigReqA.phone = sigReqB.phone ∧ sigReqA.email = sigReqB.email ∧
    sigReqA.dobAD = sigReqB.dobAD ∧ sigReqA.password = sigReqB.password ∧
    (signup id sigReqA = signup id sigReqB ∧ (signup id sigReqA).role = "passenger") :=
  ⟨rfl, rfl, rfl, rfl, rfl, rfl,
    signup_role_hardcoded_passenger id sigReqA sigReqB rfl rfl rfl rfl rfl rfl⟩

/-- A store holding ride 7, already accepted by driver 1. -/
def acceptedRideDB : RideDB :=
  { rides := fun i =>
      if i = 7 then
        some { passengerId := 5, pickupLat := 0, pickupLng := 0, dropLat := 0,
               dropLng := 0, distanceKm := 0, fare := 100,
               status := "accepted", driverId := some 1 }
      else none,
    nextId := 8 }

/-- Claim C1: evaluation of the accept handler on a ride that is **not** in
`requested` state (it is already `accepted` by driver 1).  The handler's
unconditional `UPDATE` rebinds `driver_id` to the second driver and the
handler still broadcasts `RIDE_ACCEPTED` — there is no compare-and-swap and
no `Conflict` failure. -/
theorem accept_without_cas_rebinds_driver_and_broadcasts :
    (acceptedRideDB.rides 7).map Ride.status = some "accepted" ∧
    (acceptedRideDB.rides 7).map Ride.driverId = some (some 1) ∧
    ((acceptRide acceptedRideDB 7 2 5).1.rides 7).map Ride.driverId = some (some 2) ∧
    ((acceptRide acceptedRideDB 7 2 5).1.rides 7).map Ride.status = some "accepted" ∧
    (acceptRide acceptedRideDB 7 2 5).2 = [Event.rideAccepted 7 2 5] :=
  ⟨rfl, rfl, rfl, rfl, rfl⟩

/-- A store holding ride 3, already in the terminal state `completed`. -/
def completedRideDB : RideDB :=
  { rides := fun i =>
      if i = 3 then
        some { passengerId := 5, pickupLat := 0, pickupLng := 0, dropLat := 0,
               dropLng := 0, distanceKm := 0, fare := 100,
               status := "completed", driverId := some 4 }
      else none,
    nextId := 9 }

/-- Claim C2: evaluation of the status-update handler on a ride already in
the terminal state `completed`.  The handler's unconditional `UPDATE`
overwrites the terminal status with the client-supplied `cancelled` and still
broadcasts `STATUS_UPDATE` — there is no `InvalidTransition` failure. -/
theorem updateStatus_on_terminal_overwrites_and_broadcasts :
    (completedRideDB.rides 3).map Ride.status = some "completed" ∧
    ((updateRideStatus completedRideDB 3 "cancelled" 9).1.rides 3).map Ride.status =
      some "cancelled" ∧
    (updateRideStatus completedRideDB 3 "cancelled" 9).2 =
      [Event.statusUpdate 3 "cancelled" 9] :=
  ⟨rfl, rfl, rfl⟩

/-- Claim C3: evaluation of `broadcast` on the peer set {A, B, C} where B's
send throws.  Peer A (id 1) receives the event, the iteration aborts before
peer C (id 3), and the registry is left exactly as it was — B (id 2) is not
unregistered. -/
theorem broadcast_send_failure_aborts_and_keeps_peer :
    (broadcast [⟨1, true, true⟩, ⟨2, true, false⟩, ⟨3, true, true⟩]).1 = [1] ∧
    (3 : Nat) ∉ (broadcast [⟨1, true, true⟩, ⟨2, true, false⟩, ⟨3, true, true⟩]).1 ∧
    (broadcast [⟨1, true, true⟩, ⟨2, true, false⟩, ⟨3, true, true⟩]).2 =
      [⟨1, true, true⟩, ⟨2, true, false⟩, ⟨3, true, true⟩] ∧
    (⟨2, true, false⟩ : Client) ∈
      (broadcast [⟨1, true, true⟩, ⟨2, true, false⟩, ⟨3, true, true⟩]).2 := by
  refine ⟨rfl, by decide, rfl, by decide⟩

/-- The "driverId is set iff the status is accepted/completed (or a terminal
state reached after acceptance)" invariant of the spec's data model, with the
history-dependent disjunct abstracted as a proposition. -/
def rideDriverConsistent (r : Ride) (terminalAfterAccept : Prop) : Prop :=
  r.driverId.isSome = true ↔
    (r.status = "accepted" ∨ r.status = "completed" ∨ terminalAfterAccept)

/-- The empty `ride_requests` table. -/
def emptyRideDB : RideDB := { rides := fun _ => none, nextId := 0 }

/-- The store after creating one ride (id 0) in the empty store. -/
noncomputable def c6CreatedDB : RideDB := (requestRide emptyRideDB 1 0 0 0 0).db

/-- The store after additionally running the status-update handler with
status `completed` on the ride just created (which is still `requested` and
has no driver, since it was never accepted). -/
noncomputable def c6FinalDB : RideDB :=
  (updateRideStatus c6CreatedDB (requestRide emptyRideDB 1 0 0 0 0).rideId "completed" 1).1

/-- Claim C6: a reachable state violating the driverId/status invariant.
Creating a ride and then calling the status-update handler with `completed`
(accepted by the code without any transition check) yields a ride whose
status is `completed` while `driverId` is still unset, so the invariant fails
no matter how its "terminal state reached after acceptance" disjunct is read:
this ride was never accepted, so that disjunct is `False`. -/
theorem create_then_complete_violates_driver_invariant :
    (c6CreatedDB.rides 0).map Ride.status = some "requested" ∧
    (c6CreatedDB.rides 0).map Ride.driverId = some none ∧
    (c6FinalDB.rides 0).map Ride.status = some "completed" ∧
    (c6FinalDB.rides 0).map Ride.driverId = some none ∧
    ¬ (∀ r : Ride, c6FinalDB.rides 0 = some r → rideDriverConsistent r False) := by
  refine ⟨rfl, rfl, rfl, rfl, ?_⟩
  intro hAll
  have hc := hAll _ rfl
  have hb := hc.mpr (Or.inr (Or.inl rfl))
  simp at hb

end RideShare
